import Mathlib

/-
Shallow embedding of
src/packages/react-instantsearch/src/core/createInstantSearchManager.js.

JavaScript objects that are used as string-keyed dictionaries (the index
mapping, the multi-index results object, the facet-value results) are
embedded as insertion-ordered association lists; property write keeps the
position of an existing key and appends a new key at the end, matching
JavaScript object semantics.
-/

namespace ReactInstantSearch

/-- Read of a JavaScript object property: first (only) binding of the key. -/
def lookupKey {α : Type} (l : List (String × α)) (k : String) : Option α :=
  (l.find? (fun p => p.1 == k)).map (fun p => p.2)

/-- Write of a JavaScript object property: overwrite in place, else append. -/
def setKey {α : Type} : List (String × α) → String → α → List (String × α)
  | [], k, v => [(k, v)]
  | p :: rest, k, v => if p.1 == k then (k, v) :: rest else p :: setKey rest k v

/-- JavaScript truthiness of an optional string: undefined and the empty
string are falsy. -/
def truthyStr : Option String → Bool
  | none => false
  | some s => !(s == "")

/-- Search parameters: the index actually queried plus the remaining
settings, kept abstract as a string-keyed dictionary. -/
structure SearchParameters where
  index : String
  fields : List (String × String)
deriving DecidableEq, Repr

def SearchParameters.setIndex (sp : SearchParameters) (i : String) : SearchParameters :=
  { sp with index := i }

def SearchParameters.setField (sp : SearchParameters) (k v : String) : SearchParameters :=
  { sp with fields := setKey sp.fields k v }

def SearchParameters.getField (sp : SearchParameters) (k : String) : Option String :=
  lookupKey sp.fields k

/-- A widget as the manager sees it: an identity, the optional capability
functions, the optional multi-index context (its targetedIndex) and the
optional props.indexName. -/
structure Widget where
  id : Nat
  getSearchParameters : Option (SearchParameters → SearchParameters)
  getMetadata : Option (String → Option Nat)
  transitionState : Option (String → String → String)
  multiIndexContext : Option String
  propsIndexName : Option String

/-- Line 76 / 90 / 112: Boolean(widget.getSearchParameters). -/
def hasGetSearchParameters (w : Widget) : Bool :=
  w.getSearchParameters.isSome

/-- One fold step: widget.getSearchParameters(res) (lines 83, 120, 143). -/
def applyWidget (res : SearchParameters) (w : Widget) : SearchParameters :=
  match w.getSearchParameters with
  | some f => f res
  | none => res

/-- Lines 77-81: no multiIndexContext and (props.indexName === indexName or
props.indexName falsy). -/
def isSharedWidget (indexName : String) (w : Widget) : Bool :=
  w.multiIndexContext.isNone &&
    (w.propsIndexName == some indexName || !truthyStr w.propsIndexName)

/-- Lines 91-96: (multiIndexContext present and targetedIndex !== indexName)
or (props.indexName truthy and !== indexName). -/
def isDerivedWidget (indexName : String) (w : Widget) : Bool :=
  (match w.multiIndexContext with
    | some t => !(t == indexName)
    | none => false) ||
  (truthyStr w.propsIndexName && !(w.propsIndexName == some indexName))

/-- Lines 113-118: (multiIndexContext present and targetedIndex === indexName)
or (props.indexName truthy and === indexName). -/
def isMainIndexWidget (indexName : String) (w : Widget) : Bool :=
  (match w.multiIndexContext with
    | some t => t == indexName
    | none => false) ||
  (truthyStr w.propsIndexName && w.propsIndexName == some indexName)

/-- Lines 74-85: fold the shared-bucket widgets over initialSearchParameters. -/
def sharedParameters (indexName : String)
    (initialSearchParameters : SearchParameters) (ws : List Widget) :
    SearchParameters :=
  ((ws.filter hasGetSearchParameters).filter (isSharedWidget indexName)).foldl
    applyWidget initialSearchParameters

/-- Lines 98-100: multiIndexContext ? targetedIndex : props.indexName. -/
def targetedIndexOf (w : Widget) : Option String :=
  match w.multiIndexContext with
  | some t => some t
  | none => w.propsIndexName

/-- Lines 101-107: push the widget into the group whose targetedIndex
matches, else append a new group. -/
def pushToGroup : List (Option String × List Widget) → Option String → Widget →
    List (Option String × List Widget)
  | [], t, w => [(t, [w])]
  | p :: rest, t, w =>
    if p.1 == t then (p.1, p.2 ++ [w]) :: rest else p :: pushToGroup rest t w

/-- Lines 88-108: group the derived-bucket widgets by targeted index. -/
def derivatedWidgets (indexName : String) (ws : List Widget) :
    List (Option String × List Widget) :=
  ((ws.filter hasGetSearchParameters).filter (isDerivedWidget indexName)).foldl
    (fun indices w => pushToGroup indices (targetedIndexOf w) w) []

/-- Lines 110-122: fold the main-index-bucket widgets over sharedParameters. -/
def mainIndexParameters (indexName : String)
    (initialSearchParameters : SearchParameters) (ws : List Widget) :
    SearchParameters :=
  ((ws.filter hasGetSearchParameters).filter (isMainIndexWidget indexName)).foldl
    applyWidget (sharedParameters indexName initialSearchParameters ws)

structure ComposeResult where
  sharedParameters : SearchParameters
  mainIndexParameters : SearchParameters
  derivatedWidgets : List (Option String × List Widget)
  indexMapping : List (String × String)

/-- Lines 72-125. The previous contents of the indexMapping closure variable
are an input; line 73 resets it before line 86 writes the entry for the
shared parameters' index. -/
def getSearchParameters (indexName : String)
    (initialSearchParameters : SearchParameters) (ws : List Widget)
    (prevIndexMapping : List (String × String)) : ComposeResult :=
  let _ := prevIndexMapping
  let shared := sharedParameters indexName initialSearchParameters ws
  { sharedParameters := shared
    mainIndexParameters := mainIndexParameters indexName initialSearchParameters ws
    derivatedWidgets := derivatedWidgets indexName ws
    indexMapping := setKey [] shared.index indexName }

/-- Lines 141-148: each derived group's parameters are its widgets folded
over sharedParameters. -/
def foldedGroups (indexName : String)
    (initialSearchParameters : SearchParameters) (ws : List Widget) :
    List (Option String × SearchParameters) :=
  (derivatedWidgets indexName ws).map
    (fun g => (g.1, g.2.foldl applyWidget
      (sharedParameters indexName initialSearchParameters ws)))

structure CycleOutcome where
  indexMapping : List (String × String)
  derivedHelperKeys : List (Option String)
  helperState : SearchParameters
  dispatchedIndices : List String
deriving Repr

/-- Lines 127-158, one un-skipped search cycle. Modelled from the spec: the
derive/attach contract of the external Search Client helper is not part of
this repository; per spec sections 4.3 and 6 each derived context's parameter
function (lines 141-148, which also writes its indexMapping entry) runs at
request-build time inside helper.search, after setState(mainIndexParameters)
and before any request is dispatched. A mapping value for a group whose
targeted index is undefined is recorded under the JavaScript string
coercion, the literal string shown in the fallback below. -/
def runSearchCycle (indexName : String)
    (initialSearchParameters : SearchParameters) (ws : List Widget)
    (prevIndexMapping : List (String × String)) : CycleOutcome :=
  let c := getSearchParameters indexName initialSearchParameters ws prevIndexMapping
  let folded := foldedGroups indexName initialSearchParameters ws
  { indexMapping :=
      folded.foldl (fun m g => setKey m g.2.index (g.1.getD "undefined")) c.indexMapping
    derivedHelperKeys := c.derivatedWidgets.map (fun g => g.1)
    helperState := c.mainIndexParameters
    dispatchedIndices := c.mainIndexParameters.index :: folded.map (fun g => g.2.index) }

/-- A response delivered by the Search Client; it carries the physical index
it answered (content.index) and an opaque payload. -/
structure Response where
  index : String
  hits : List String
deriving DecidableEq, Repr

/-- The shape of the results field of the store: null, a single response
object (which, unlike a plain object, has a getFacetByName method), or a
plain object keyed by logical index name. -/
inductive Results where
  | null : Results
  | mono : Response → Results
  | multi : List (String × Response) → Results
deriving DecidableEq, Repr

/-- Line 166: results.getFacetByName is truthy exactly on a response object. -/
def Results.isMono : Results → Bool
  | .mono _ => true
  | _ => false

def Results.isMulti : Results → Bool
  | .multi _ => true
  | _ => false

def Results.entriesOf : Results → List (String × Response)
  | .multi es => es
  | _ => []

/-- Line 169: property write on the results object. On the line-169 code
path the receiver is always a plain object; the other shapes are returned
unchanged. -/
def Results.setEntry : Results → String → Response → Results
  | .multi es, k, v => .multi (setKey es k v)
  | r, _, _ => r

/-- The observable store state (lines 40-47 plus the resultsFacetValues
field written by onSearchForFacetValues). The widget configuration snapshot
is opaque, a metadata entry is reduced to its optional id. -/
structure StoreState where
  widgets : String
  metadata : List (Option Nat)
  results : Results
  error : Option String
  searching : Bool
  searchingForFacetValues : Bool
  resultsFacetValues : Option (List (String × List String) × String)
deriving DecidableEq

/-- Lines 160-184. The derivedHelpers keys and the indexMapping at handling
time are inputs; a failed mapping lookup yields the JavaScript property key
coercion of undefined. -/
def handleSearchSuccess (derivedHelperKeys : List (Option String))
    (indexMapping : List (String × String)) (st : StoreState)
    (content : Response) : StoreState :=
  let results := match st.results with
    | Results.null => Results.multi []
    | r => r
  let results := if !derivedHelperKeys.isEmpty && results.isMono then Results.multi [] else results
  let results :=
    if !derivedHelperKeys.isEmpty then
      results.setEntry ((lookupKey indexMapping content.index).getD "undefined") content
    else
      Results.mono content
  { st with results := results, searching := false, error := none,
            resultsFacetValues := none }

/-- Lines 186-196. -/
def handleSearchError (st : StoreState) (error : String) : StoreState :=
  { st with error := some error, searching := false, resultsFacetValues := none }

/-- Lines 65-70: the metadata of the widgets exposing getMetadata. -/
def getMetadata (ws : List Widget) (state : String) : List (Option Nat) :=
  (ws.filter (fun w => w.getMetadata.isSome)).map
    (fun w =>
      match w.getMetadata with
      | some f => f state
      | none => none)

/-- Lines 238-241: entering onSearchForFacetValues sets the dedicated flag. -/
def onSearchForFacetValuesStart (st : StoreState) : StoreState :=
  { st with searchingForFacetValues := true }

/-- Lines 246-256: the success continuation of the facet-value request. -/
def onSearchForFacetValuesSuccess (st : StoreState) (facetName : String)
    (facetHits : List String) (query : String) : StoreState :=
  let prev := match st.resultsFacetValues with
    | some rfv => rfv.1
    | none => []
  { st with resultsFacetValues := some (setKey prev facetName facetHits, query),
            searchingForFacetValues := false }

/-- Lines 257-262: the error continuation of the facet-value request. -/
def onSearchForFacetValuesError (st : StoreState) (error : String) : StoreState :=
  { st with error := some error, searchingForFacetValues := false }

/-- Lines 213-222. -/
def transitionState (ws : List Widget) (searchState nextSearchState : String) :
    String :=
  (ws.filter (fun w => w.transitionState.isSome)).foldl
    (fun res w =>
      match w.transitionState with
      | some f => f searchState res
      | none => res)
    nextSearchState

/-- The mutable closure state of one manager instance, together with a log
of the physical indices of every request dispatched so far. -/
structure ManagerState where
  skip : Bool
  helperState : SearchParameters
  derivedHelperKeys : List (Option String)
  indexMapping : List (String × String)
  initialSearchParameters : SearchParameters
  client : Nat
  cacheVersion : Nat
  store : StoreState
  dispatched : List String

/-- Lines 127-158: search() is a no-op when the skip flag is set; otherwise
it runs a cycle and commits its outcome. -/
def search (indexName : String) (ws : List Widget) (m : ManagerState) :
    ManagerState :=
  if !m.skip then
    let o := runSearchCycle indexName m.initialSearchParameters ws m.indexMapping
    { m with helperState := o.helperState
             derivedHelperKeys := o.derivedHelperKeys
             indexMapping := o.indexMapping
             dispatched := m.dispatched ++ o.dispatchedIndices }
  else m

/-- Lines 51-53. -/
def skipSearch (m : ManagerState) : ManagerState :=
  { m with skip := true }

/-- Lines 55-58: helper.setClient then search(). -/
def updateClient (indexName : String) (ws : List Widget) (client : Nat)
    (m : ManagerState) : ManagerState :=
  search indexName ws { m with client := client }

/-- Lines 60-63: helper.clearCache then search(). -/
def clearCache (indexName : String) (ws : List Widget) (m : ManagerState) :
    ManagerState :=
  search indexName ws { m with cacheVersion := m.cacheVersion + 1 }

/-- Lines 276-279: rebase initialSearchParameters on the new index, then
search(). -/
def updateIndex (indexName : String) (ws : List Widget) (newIndex : String)
    (m : ManagerState) : ManagerState :=
  search indexName ws
    { m with initialSearchParameters := m.initialSearchParameters.setIndex newIndex }

/-- Lines 199-211. -/
def onWidgetsUpdate (indexName : String) (ws : List Widget) (m : ManagerState) :
    ManagerState :=
  search indexName ws
    { m with store := { m.store with
        metadata := getMetadata ws m.store.widgets
        searching := true } }

/-- Lines 224-235. -/
def onExternalStateUpdate (indexName : String) (ws : List Widget)
    (nextSearchState : String) (m : ManagerState) : ManagerState :=
  search indexName ws
    { m with store := { m.store with
        widgets := nextSearchState
        metadata := getMetadata ws nextSearchState
        searching := true } }

/-- Lines 237-241 lifted to the manager state. -/
def onSearchForFacetValuesStartM (m : ManagerState) : ManagerState :=
  { m with store := onSearchForFacetValuesStart m.store }

/-- Lines 246-256 lifted to the manager state. -/
def onSearchForFacetValuesSuccessM (m : ManagerState) (facetName : String)
    (facetHits : List String) (query : String) : ManagerState :=
  { m with store := onSearchForFacetValuesSuccess m.store facetName facetHits query }

/-- Lines 257-262 lifted to the manager state. -/
def onSearchForFacetValuesErrorM (m : ManagerState) (error : String) :
    ManagerState :=
  { m with store := onSearchForFacetValuesError m.store error }

/-- Lines 281-289. -/
def getWidgetsIds (m : ManagerState) : List Nat :=
  m.store.metadata.foldl
    (fun res meta =>
      match meta with
      | some i => res ++ [i]
      | none => res)
    []

/-- How many of the three composer buckets a widget falls into. -/
def bucketCount (indexName : String) (w : Widget) : Nat :=
  (if isSharedWidget indexName w then 1 else 0) +
  (if isMainIndexWidget indexName w then 1 else 0) +
  (if isDerivedWidget indexName w then 1 else 0)

/-- Applying a sequence of property writes to a dictionary, left to right. -/
def applyWrites (m0 : List (String × String)) (writes : List (String × String)) :
    List (String × String) :=
  writes.foldl (fun m p => setKey m p.1 p.2) m0

section AssocLemmas

variable {α : Type}

theorem lookupKey_setKey_self (l : List (String × α)) (k : String) (v : α) :
    lookupKey (setKey l k v) k = some v := by
  induction l with
  | nil => simp [setKey, lookupKey]
  | cons p rest ih =>
    by_cases h : p.1 = k
    · simp [setKey, lookupKey, h]
    · simp only [setKey, lookupKey] at ih ⊢
      simp [h, ih]

theorem lookupKey_setKey_ne (l : List (String × α)) (k kq : String) (v : α)
    (h : kq ≠ k) : lookupKey (setKey l k v) kq = lookupKey l kq := by
  induction l with
  | nil => simp [setKey, lookupKey, Ne.symm h]
  | cons p rest ih =>
    by_cases hp : p.1 = k
    · simp [setKey, lookupKey, hp, Ne.symm h, h]
    · by_cases hq : p.1 = kq
      · simp [setKey, lookupKey, hp, hq, h]
      · simp only [setKey, lookupKey] at ih ⊢
        simp [hp, hq, ih]

theorem lookupKey_setKey_isSome (l : List (String × α)) (k kq : String) (v : α)
    (h : (lookupKey l kq).isSome = true) :
    (lookupKey (setKey l k v) kq).isSome = true := by
  by_cases hk : kq = k
  · subst hk; simp [lookupKey_setKey_self]
  · rw [lookupKey_setKey_ne l k kq v hk]; exact h

end AssocLemmas

theorem lookupKey_applyWrites_isSome (writes : List (String × String))
    (m0 : List (String × String)) (k : String)
    (h : (lookupKey m0 k).isSome = true) :
    (lookupKey (applyWrites m0 writes) k).isSome = true := by
  induction writes generalizing m0 with
  | nil => exact h
  | cons p rest ih =>
    exact ih (setKey m0 p.1 p.2) (lookupKey_setKey_isSome m0 p.1 k p.2 h)

theorem lookupKey_applyWrites_mem_isSome (writes : List (String × String))
    (m0 : List (String × String)) (k : String)
    (h : k ∈ writes.map Prod.fst) :
    (lookupKey (applyWrites m0 writes) k).isSome = true := by
  induction writes generalizing m0 with
  | nil => simp at h
  | cons p rest ih =>
    rw [List.map_cons] at h
    rcases List.mem_cons.mp h with hk | hk
    · exact lookupKey_applyWrites_isSome rest (setKey m0 p.1 p.2) k
        (by rw [hk]; simp [lookupKey_setKey_self])
    · exact ih (setKey m0 p.1 p.2) hk

theorem lookupKey_applyWrites_notMem (writes : List (String × String))
    (m0 : List (String × String)) (k : String)
    (h : k ∉ writes.map Prod.fst) :
    lookupKey (applyWrites m0 writes) k = lookupKey m0 k := by
  induction writes generalizing m0 with
  | nil => rfl
  | cons p rest ih =>
    have hne : k ≠ p.1 := by
      intro hc; exact h (by simp [hc])
    have htail : k ∉ rest.map Prod.fst := by
      intro hc; exact h (by simp [hc])
    rw [show applyWrites m0 (p :: rest) = applyWrites (setKey m0 p.1 p.2) rest from rfl,
      ih (setKey m0 p.1 p.2) htail, lookupKey_setKey_ne m0 p.1 k p.2 hne]

theorem lookupKey_applyWrites_nodup (writes : List (String × String))
    (m0 : List (String × String)) (k : String) (v : String)
    (hnd : (writes.map Prod.fst).Nodup) (hm : (k, v) ∈ writes) :
    lookupKey (applyWrites m0 writes) k = some v := by
  induction writes generalizing m0 with
  | nil => simp at hm
  | cons p rest ih =>
    rw [List.map_cons] at hnd
    rcases List.mem_cons.mp hm with hk | hk
    · subst hk
      have hkey : k ∉ rest.map Prod.fst := (List.nodup_cons.mp hnd).1
      rw [show applyWrites m0 ((k, v) :: rest) = applyWrites (setKey m0 k v) rest from rfl,
        lookupKey_applyWrites_notMem rest (setKey m0 k v) k hkey,
        lookupKey_setKey_self]
    · exact ih (setKey m0 p.1 p.2) (List.nodup_cons.mp hnd).2 hk

theorem pushToGroup_keys (l : List (Option String × List Widget))
    (t : Option String) (w : Widget) :
    (pushToGroup l t w).map Prod.fst =
      if t ∈ l.map Prod.fst then l.map Prod.fst else l.map Prod.fst ++ [t] := by
  induction l with
  | nil => simp [pushToGroup]
  | cons p rest ih =>
    by_cases hp : p.1 = t
    · simp [pushToGroup, hp]
    · have : (t ∈ p.1 :: rest.map Prod.fst) = (t ∈ rest.map Prod.fst) := by
        simp [List.mem_cons, Ne.symm hp]
      by_cases hm : t ∈ rest.map Prod.fst
      · simp [pushToGroup, hp, hm, ih]
      · simp [pushToGroup, hp, hm, ih, Ne.symm hp]

theorem pushToGroup_keys_nodup (l : List (Option String × List Widget))
    (t : Option String) (w : Widget)
    (h : (l.map Prod.fst).Nodup) : ((pushToGroup l t w).map Prod.fst).Nodup := by
  rw [pushToGroup_keys]
  by_cases hm : t ∈ l.map Prod.fst
  · simpa [hm] using h
  · simp [hm, List.nodup_append, h]

theorem pushToGroup_targets (l : List (Option String × List Widget))
    (t : Option String) (w : Widget) (hw : targetedIndexOf w = t)
    (hl : ∀ p ∈ l, ∀ x ∈ p.2, targetedIndexOf x = p.1) :
    ∀ p ∈ pushToGroup l t w, ∀ x ∈ p.2, targetedIndexOf x = p.1 := by
  induction l with
  | nil =>
    intro p hp x hx
    simp [pushToGroup] at hp
    subst hp
    simp at hx
    subst hx
    exact hw
  | cons q rest ih =>
    by_cases hq : q.1 = t
    · intro p hp x hx
      rw [show pushToGroup (q :: rest) t w = (q.1, q.2 ++ [w]) :: rest from by
        simp [pushToGroup, hq]] at hp
      rcases List.mem_cons.mp hp with hph | hph
      · subst hph
        rcases List.mem_append.mp hx with hxq | hxq
        · exact hl q (List.mem_cons_self q rest) x hxq
        · simp at hxq
          subst hxq
          rw [hw, hq]
      · exact hl p (List.mem_cons_of_mem q hph) x hx
    · intro p hp x hx
      rw [show pushToGroup (q :: rest) t w = q :: pushToGroup rest t w from by
        simp [pushToGroup, hq]] at hp
      rcases List.mem_cons.mp hp with hph | hph
      · subst hph
        exact hl p (List.mem_cons_self p rest) x hx
      · exact ih (fun r hr => hl r (List.mem_cons_of_mem q hr)) p hph x hx

theorem pushToGroup_mem_self (l : List (Option String × List Widget))
    (t : Option String) (w : Widget) :
    ∃ p ∈ pushToGroup l t w, p.1 = t ∧ w ∈ p.2 := by
  induction l with
  | nil => exact ⟨(t, [w]), by simp [pushToGroup]⟩
  | cons q rest ih =>
    by_cases hq : q.1 = t
    · refine ⟨(q.1, q.2 ++ [w]), ?_, hq, by simp⟩
      rw [show pushToGroup (q :: rest) t w = (q.1, q.2 ++ [w]) :: rest from by
        simp [pushToGroup, hq]]
      exact List.mem_cons_self _ _
    · rcases ih with ⟨p, hp, hpt, hpw⟩
      refine ⟨p, ?_, hpt, hpw⟩
      rw [show pushToGroup (q :: rest) t w = q :: pushToGroup rest t w from by
        simp [pushToGroup, hq]]
      exact List.mem_cons_of_mem q hp

theorem pushToGroup_mem_mono (l : List (Option String × List Widget))
    (t t0 : Option String) (w x : Widget)
    (h : ∃ p ∈ l, p.1 = t0 ∧ x ∈ p.2) :
    ∃ p ∈ pushToGroup l t w, p.1 = t0 ∧ x ∈ p.2 := by
  induction l with
  | nil => simp at h
  | cons q rest ih =>
    rcases h with ⟨p, hp, hpt, hpx⟩
    by_cases hq : q.1 = t
    · rw [show pushToGroup (q :: rest) t w = (q.1, q.2 ++ [w]) :: rest from by
        simp [pushToGroup, hq]]
      rcases List.mem_cons.mp hp with hph | hph
      · subst hph
        exact ⟨(p.1, p.2 ++ [w]), List.mem_cons_self _ _, hpt, List.mem_append_left _ hpx⟩
      · exact ⟨p, List.mem_cons_of_mem _ hph, hpt, hpx⟩
    · rw [show pushToGroup (q :: rest) t w = q :: pushToGroup rest t w from by
        simp [pushToGroup, hq]]
      rcases List.mem_cons.mp hp with hph | hph
      · subst hph
        exact ⟨p, List.mem_cons_self _ _, hpt, hpx⟩
      · rcases ih ⟨p, hph, hpt, hpx⟩ with ⟨r, hr, hrt, hrx⟩
        exact ⟨r, List.mem_cons_of_mem q hr, hrt, hrx⟩

theorem groupsFold_inv (input : List Widget)
    (acc : List (Option String × List Widget))
    (hkeys : (acc.map Prod.fst).Nodup)
    (htargets : ∀ p ∈ acc, ∀ x ∈ p.2, targetedIndexOf x = p.1) :
    ((input.foldl (fun indices w => pushToGroup indices (targetedIndexOf w) w) acc).map
        Prod.fst).Nodup
    ∧ ∀ p ∈ input.foldl (fun indices w => pushToGroup indices (targetedIndexOf w) w) acc,
        ∀ x ∈ p.2, targetedIndexOf x = p.1 := by
  induction input generalizing acc with
  | nil => exact ⟨hkeys, htargets⟩
  | cons a rest ih =>
    exact ih (pushToGroup acc (targetedIndexOf a) a)
      (pushToGroup_keys_nodup acc (targetedIndexOf a) a hkeys)
      (pushToGroup_targets acc (targetedIndexOf a) a rfl htargets)

theorem groupsFold_mem_mono (input : List Widget)
    (acc : List (Option String × List Widget)) (t0 : Option String) (x : Widget)
    (h : ∃ p ∈ acc, p.1 = t0 ∧ x ∈ p.2) :
    ∃ p ∈ input.foldl (fun indices w => pushToGroup indices (targetedIndexOf w) w) acc,
      p.1 = t0 ∧ x ∈ p.2 := by
  induction input generalizing acc with
  | nil => exact h
  | cons a rest ih =>
    exact ih (pushToGroup acc (targetedIndexOf a) a)
      (pushToGroup_mem_mono acc (targetedIndexOf a) t0 a x h)

theorem groupsFold_mem_new (input : List Widget)
    (acc : List (Option String × List Widget)) (w : Widget) (hw : w ∈ input) :
    ∃ p ∈ input.foldl (fun indices w => pushToGroup indices (targetedIndexOf w) w) acc,
      p.1 = targetedIndexOf w ∧ w ∈ p.2 := by
  induction input generalizing acc with
  | nil => simp at hw
  | cons a rest ih =>
    rcases List.mem_cons.mp hw with hwa | hwa
    · subst hwa
      exact groupsFold_mem_mono rest (pushToGroup acc (targetedIndexOf w) w)
        (targetedIndexOf w) w (pushToGroup_mem_self acc (targetedIndexOf w) w)
    · exact ih (pushToGroup acc (targetedIndexOf a) a) hwa

/-
Concrete fixtures used by counterexamples and witnesses.
-/

def baseParams : SearchParameters := { index := "products", fields := [] }

/-- A widget declaring props.indexName equal to the primary index, with no
multi-index context: an Index wrapper around the primary index. -/
def sharedAndMainWidget : Widget :=
  { id := 0
    getSearchParameters := some (fun sp => sp)
    getMetadata := none
    transitionState := none
    multiIndexContext := none
    propsIndexName := some "products" }

/-- A sort-by-style widget targeting the primary index through its
multi-index context while redirecting the physical index. -/
def sortByMainWidget : Widget :=
  { id := 1
    getSearchParameters := some (fun sp => sp.setIndex "products_price_desc")
    getMetadata := none
    transitionState := none
    multiIndexContext := some "products"
    propsIndexName := none }

/-- An Index-wrapper-style widget targeting a secondary index. -/
def derivedIndexWidget : Widget :=
  { id := 2
    getSearchParameters := some (fun sp => sp.setIndex "products_by_price")
    getMetadata := none
    transitionState := none
    multiIndexContext := some "products_by_price"
    propsIndexName := none }

/-- A shared-bucket widget that overwrites one settings field. -/
def hitsPerPageWidget : Widget :=
  { id := 3
    getSearchParameters := some (fun sp => { sp with fields := [("hitsPerPage", "10")] })
    getMetadata := none
    transitionState := none
    multiIndexContext := none
    propsIndexName := none }

def responseMain : Response := { index := "products", hits := ["hit0"] }

def responseDerived : Response := { index := "products_by_price", hits := ["hit1"] }

def responseStale : Response := { index := "products_stale", hits := ["hit2"] }

def storeNull : StoreState :=
  { widgets := "initial"
    metadata := []
    results := Results.null
    error := none
    searching := true
    searchingForFacetValues := false
    resultsFacetValues := none }

def storeMono : StoreState :=
  { storeNull with results := Results.mono responseMain
                   resultsFacetValues := some ([("brand", ["apple"])], "ap") }

def storeMulti : StoreState :=
  { storeNull with results := Results.multi [("products", responseMain)] }

def managerSkipped : ManagerState :=
  { skip := true
    helperState := baseParams
    derivedHelperKeys := []
    indexMapping := [("products", "products")]
    initialSearchParameters := baseParams
    client := 0
    cacheVersion := 0
    store := storeMono
    dispatched := ["products"] }

/-
Claim theorems.
-/

/-- Claim C5: for every error delivered to the main-search error handler and
every prior store state, the handler stores the error in the error field,
sets the main in-flight flag searching to false, and leaves the prior
results field unchanged. -/
theorem handleSearchError_stores_error_clears_flag_keeps_results
    (st : StoreState) (error : String) :
    (handleSearchError st error).error = some error
    ∧ (handleSearchError st error).searching = false
    ∧ (handleSearchError st error).results = st.results :=
  ⟨rfl, rfl, rfl⟩

/-- Claim C6: for a fixed widget set and fixed base configuration the
composition is a pure function of widget registration order and
configuration: its outputs (shared, primary, derived groups and the rebuilt
mapping) do not depend on the pre-existing index-mapping state, so running
it twice in a row (the second run seeing the first run's mapping) yields
identical shared, primary and derived outputs. -/
theorem getSearchParameters_deterministic (indexName : String)
    (initialSearchParameters : SearchParameters) (ws : List Widget)
    (pm1 pm2 : List (String × String)) :
    getSearchParameters indexName initialSearchParameters ws pm1
      = getSearchParameters indexName initialSearchParameters ws pm2
    ∧ runSearchCycle indexName initialSearchParameters ws
        (runSearchCycle indexName initialSearchParameters ws pm1).indexMapping
      = runSearchCycle indexName initialSearchParameters ws pm1 :=
  ⟨rfl, rfl⟩

/-- Claim C8: for every error delivered on the facet-value search path and
every prior store state, handling that error leaves the results field, the
metadata field, and the main in-flight flag searching unchanged (as well as
the widget snapshot and the facet-value results); only the error field and
the searchingForFacetValues flag are modified. -/
theorem onSearchForFacetValuesError_isolated (st : StoreState) (error : String) :
    (onSearchForFacetValuesError st error).results = st.results
    ∧ (onSearchForFacetValuesError st error).metadata = st.metadata
    ∧ (onSearchForFacetValuesError st error).searching = st.searching
    ∧ (onSearchForFacetValuesError st error).widgets = st.widgets
    ∧ (onSearchForFacetValuesError st error).resultsFacetValues = st.resultsFacetValues
    ∧ (onSearchForFacetValuesError st error).error = some error
    ∧ (onSearchForFacetValuesError st error).searchingForFacetValues = false :=
  ⟨rfl, rfl, rfl, rfl, rfl, rfl, rfl⟩

/-- Claim C10: every completion of the main search, success or error,
removes the resultsFacetValues field from the store state. -/
theorem mainSearchCompletion_clears_resultsFacetValues
    (derivedHelperKeys : List (Option String))
    (indexMapping : List (String × String)) (st : StoreState)
    (content : Response) (error : String) :
    (handleSearchSuccess derivedHelperKeys indexMapping st content).resultsFacetValues = none
    ∧ (handleSearchError st error).resultsFacetValues = none :=
  ⟨rfl, rfl⟩

/-- Claim C2: the stored results are multi-index-shaped exactly when the
cycle being reconciled had at least one derived request group (derived
helpers present at reconcile time); with no derived group the response
object is written directly as results (mono shape); and on the first
response of a multi-index cycle a prior mono-shaped value is discarded
rather than merged, the new map holding only the entry for this response. -/
theorem handleSearchSuccess_results_shape
    (derivedHelperKeys : List (Option String))
    (indexMapping : List (String × String)) (st : StoreState)
    (content : Response) :
    ((handleSearchSuccess derivedHelperKeys indexMapping st content).results.isMulti = true
       ↔ derivedHelperKeys ≠ [])
    ∧ (derivedHelperKeys = [] →
        (handleSearchSuccess derivedHelperKeys indexMapping st content).results
          = Results.mono content)
    ∧ (∀ r : Response, derivedHelperKeys ≠ [] → st.results = Results.mono r →
        (handleSearchSuccess derivedHelperKeys indexMapping st content).results
          = Results.multi
              [((lookupKey indexMapping content.index).getD "undefined", content)]) := by
  refine ⟨?_, ?_, ?_⟩
  · cases derivedHelperKeys with
    | nil =>
      cases hres : st.results <;>
        simp [handleSearchSuccess, hres, Results.isMulti, Results.isMono, Results.setEntry]
    | cons d ds =>
      cases hres : st.results <;>
        simp [handleSearchSuccess, hres, Results.isMulti, Results.isMono, Results.setEntry]
  · intro hdh
    subst hdh
    cases hres : st.results <;>
      simp [handleSearchSuccess, hres, Results.isMulti, Results.isMono, Results.setEntry]
  · intro r hdh hres
    cases derivedHelperKeys with
    | nil => exact absurd rfl hdh
    | cons d ds =>
      simp [handleSearchSuccess, hres, Results.isMono, Results.setEntry, setKey]

/-- Witness for C2 at a concrete multi-index cycle whose prior results were
mono-shaped. -/
theorem handleSearchSuccess_results_shape_witness :
    (handleSearchSuccess [some "products_by_price"]
        [("products_by_price", "products_by_price")] storeMono responseDerived).results
      = Results.multi
          [((lookupKey [("products_by_price", "products_by_price")]
              responseDerived.index).getD "undefined", responseDerived)] :=
  (handleSearchSuccess_results_shape [some "products_by_price"]
    [("products_by_price", "products_by_price")] storeMono responseDerived).2.2
    responseMain (by decide) rfl

/-- Claim C7: the shared parameters are the left-to-right fold, in widget
registration order, of each shared-bucket widget's contribution over the
base parameters; consequently appending a widget whose contribution forces
a field value makes that value win over anything set earlier. -/
theorem sharedParameters_is_ordered_fold :
    (∀ (indexName : String) (init : SearchParameters) (ws : List Widget),
        sharedParameters indexName init ws
          = ((ws.filter hasGetSearchParameters).filter (isSharedWidget indexName)).foldl
              applyWidget init)
    ∧ (∀ (indexName : String) (init : SearchParameters) (ws : List Widget) (w : Widget)
        (f v : String),
        hasGetSearchParameters w = true → isSharedWidget indexName w = true →
        (∀ sp : SearchParameters, (applyWidget sp w).getField f = some v) →
        (sharedParameters indexName init (ws ++ [w])).getField f = some v) := by
  refine ⟨fun indexName init ws => rfl, ?_⟩
  intro indexName init ws w f v h1 h2 h3
  have hstep : sharedParameters indexName init (ws ++ [w])
      = applyWidget (sharedParameters indexName init ws) w := by
    simp [sharedParameters, List.filter_append, List.foldl_append, h1, h2]
  rw [hstep]
  exact h3 _

/-- Witness for C7: one shared-bucket widget appended to an empty
registration list forces its field value. -/
theorem sharedParameters_fold_witness :
    (sharedParameters "products" baseParams [hitsPerPageWidget]).getField "hitsPerPage"
      = some "10" :=
  sharedParameters_is_ordered_fold.2 "products" baseParams [] hitsPerPageWidget
    "hitsPerPage" "10" rfl rfl (fun _sp => rfl)

/-- Claim C9: once skipSearch has set the skip flag, every subsequent call
to search, directly or through updateClient, clearCache, updateIndex,
onWidgetsUpdate or onExternalStateUpdate, dispatches no request and leaves
the helper state, the derived-helper set and the index mapping unchanged
(each operation performs only its own pre-search side effect); and no
operation of the returned manager interface resets the skip flag, so the
suppression is permanent. -/
theorem skipSearch_suppresses_search (indexName : String) (ws : List Widget)
    (client : Nat) (newIndex nextSearchState facetName query error : String)
    (facetHits : List String) (m : ManagerState) (hskip : m.skip = true) :
    search indexName ws m = m
    ∧ updateClient indexName ws client m = { m with client := client }
    ∧ clearCache indexName ws m = { m with cacheVersion := m.cacheVersion + 1 }
    ∧ updateIndex indexName ws newIndex m
        = { m with initialSearchParameters := m.initialSearchParameters.setIndex newIndex }
    ∧ onWidgetsUpdate indexName ws m
        = { m with store := { m.store with
              metadata := getMetadata ws m.store.widgets
              searching := true } }
    ∧ onExternalStateUpdate indexName ws nextSearchState m
        = { m with store := { m.store with
              widgets := nextSearchState
              metadata := getMetadata ws nextSearchState
              searching := true } }
    ∧ (skipSearch m).skip = true
    ∧ (search indexName ws m).skip = true
    ∧ (updateClient indexName ws client m).skip = true
    ∧ (clearCache indexName ws m).skip = true
    ∧ (updateIndex indexName ws newIndex m).skip = true
    ∧ (onWidgetsUpdate indexName ws m).skip = true
    ∧ (onExternalStateUpdate indexName ws nextSearchState m).skip = true
    ∧ (onSearchForFacetValuesStartM m).skip = true
    ∧ (onSearchForFacetValuesSuccessM m facetName facetHits query).skip = true
    ∧ (onSearchForFacetValuesErrorM m error).skip = true := by
  have hs : ∀ m2 : ManagerState, m2.skip = true → search indexName ws m2 = m2 := by
    intro m2 h2
    simp [search, h2]
  refine ⟨hs m hskip, ?_, ?_, ?_, ?_, ?_, rfl, ?_, ?_, ?_, ?_, ?_, ?_, hskip, hskip, hskip⟩
  · exact hs { m with client := client } hskip
  · exact hs { m with cacheVersion := m.cacheVersion + 1 } hskip
  · exact hs { m with initialSearchParameters := m.initialSearchParameters.setIndex newIndex }
      hskip
  · exact hs { m with store := { m.store with
        metadata := getMetadata ws m.store.widgets
        searching := true } } hskip
  · exact hs { m with store := { m.store with
        widgets := nextSearchState
        metadata := getMetadata ws nextSearchState
        searching := true } } hskip
  · rw [hs m hskip]; exact hskip
  · rw [show updateClient indexName ws client m = { m with client := client } from
      hs { m with client := client } hskip]
    exact hskip
  · rw [show clearCache indexName ws m = { m with cacheVersion := m.cacheVersion + 1 } from
      hs { m with cacheVersion := m.cacheVersion + 1 } hskip]
    exact hskip
  · rw [show updateIndex indexName ws newIndex m
        = { m with initialSearchParameters := m.initialSearchParameters.setIndex newIndex } from
      hs { m with initialSearchParameters := m.initialSearchParameters.setIndex newIndex }
        hskip]
    exact hskip
  · rw [show onWidgetsUpdate indexName ws m
        = { m with store := { m.store with
              metadata := getMetadata ws m.store.widgets
              searching := true } } from
      hs { m with store := { m.store with
        metadata := getMetadata ws m.store.widgets
        searching := true } } hskip]
    exact hskip
  · rw [show onExternalStateUpdate indexName ws nextSearchState m
        = { m with store := { m.store with
              widgets := nextSearchState
              metadata := getMetadata ws nextSearchState
              searching := true } } from
      hs { m with store := { m.store with
        widgets := nextSearchState
        metadata := getMetadata ws nextSearchState
        searching := true } } hskip]
    exact hskip

/-- Witness for C9 at a concrete skipped manager state. -/
theorem skipSearch_suppresses_search_witness :
    search "products" [] managerSkipped = managerSkipped
    ∧ (clearCache "products" [] managerSkipped).skip = true :=
  ⟨(skipSearch_suppresses_search "products" [] 1 "i" "s" "f" "q" "e" []
      managerSkipped rfl).1,
   (skipSearch_suppresses_search "products" [] 1 "i" "s" "f" "q" "e" []
      managerSkipped rfl).2.2.2.2.2.2.2.2.2.1⟩

theorem bucket_cover (indexName : String) (w : Widget) :
    (isSharedWidget indexName w || isMainIndexWidget indexName w
      || isDerivedWidget indexName w) = true := by
  rcases w with ⟨i, gsp, gm, ts, mic, props⟩
  cases mic with
  | some t =>
    by_cases ht : t = indexName <;>
      simp [isSharedWidget, isMainIndexWidget, isDerivedWidget, ht]
  | none =>
    cases props with
    | none => simp [isSharedWidget, truthyStr]
    | some s =>
      by_cases hs : s = indexName
      · simp [isSharedWidget, hs]
      · by_cases hemp : s = "" <;>
          simp [isSharedWidget, isMainIndexWidget, isDerivedWidget, truthyStr, hs, hemp]

theorem bucket_shared_derived_disjoint (indexName : String) (w : Widget) :
    ¬(isSharedWidget indexName w = true ∧ isDerivedWidget indexName w = true) := by
  rcases w with ⟨i, gsp, gm, ts, mic, props⟩
  cases mic with
  | some t => simp [isSharedWidget]
  | none =>
    cases props with
    | none => simp [isDerivedWidget, truthyStr]
    | some s =>
      rintro ⟨h1, h2⟩
      by_cases hs : s = indexName
      · simp [isDerivedWidget, hs] at h2
      · by_cases hemp : s = ""
        · simp [isDerivedWidget, truthyStr, hemp] at h2
        · simp [isSharedWidget, truthyStr, hs, hemp] at h1

/-- Counterexample to claim C1 as stated: a contributing widget whose
props.indexName equals the primary index name and that has no multi-index
context satisfies both the shared-bucket filter and the primary-index
filter, so it is consumed by two folds, not exactly one. -/
theorem composer_partition_counterexample :
    hasGetSearchParameters sharedAndMainWidget = true
    ∧ bucketCount "products" sharedAndMainWidget = 2
    ∧ isSharedWidget "products" sharedAndMainWidget = true
    ∧ isMainIndexWidget "products" sharedAndMainWidget = true := by
  refine ⟨rfl, ?_, rfl, rfl⟩
  rfl

/-- Claim C1, amended: every contributing widget falls into at least one of
the three buckets, and a widget is never consumed by both the shared fold
and a derived group; moreover the derived grouping assigns each
derived-bucket widget to exactly one group, the group keyed by its targeted
index (group keys are pairwise distinct and every member of a group carries
that group's key). A widget may however be consumed by both the shared fold
and the primary-index fold (and by both a derived group and the
primary-index fold), as the counterexample shows. -/
theorem composer_partition_amended :
    (∀ (indexName : String) (w : Widget), hasGetSearchParameters w = true →
        1 ≤ bucketCount indexName w
        ∧ ¬(isSharedWidget indexName w = true ∧ isDerivedWidget indexName w = true))
    ∧ (∀ (indexName : String) (ws : List Widget),
        ((derivatedWidgets indexName ws).map Prod.fst).Nodup
        ∧ (∀ p ∈ derivatedWidgets indexName ws, ∀ x ∈ p.2, targetedIndexOf x = p.1)
        ∧ (∀ w ∈ (ws.filter hasGetSearchParameters).filter (isDerivedWidget indexName),
            ∃ p ∈ derivatedWidgets indexName ws,
              p.1 = targetedIndexOf w ∧ w ∈ p.2)) := by
  constructor
  · intro indexName w _hw
    refine ⟨?_, bucket_shared_derived_disjoint indexName w⟩
    have hc := bucket_cover indexName w
    rcases Bool.or_eq_true_iff.mp hc with hc2 | h3
    · rcases Bool.or_eq_true_iff.mp hc2 with h1 | h2
      · unfold bucketCount
        rw [if_pos h1]
        omega
      · unfold bucketCount
        rw [if_pos h2]
        omega
    · unfold bucketCount
      rw [if_pos h3]
      omega
  · intro indexName ws
    have hinv := groupsFold_inv
      ((ws.filter hasGetSearchParameters).filter (isDerivedWidget indexName)) []
      (by simp) (by simp)
    refine ⟨hinv.1, hinv.2, ?_⟩
    intro w hw
    exact groupsFold_mem_new
      ((ws.filter hasGetSearchParameters).filter (isDerivedWidget indexName)) [] w hw

/-- Witness for the amended C1 at a concrete contributing widget and a
concrete one-widget derived bucket. -/
theorem composer_partition_amended_witness :
    (1 ≤ bucketCount "products" sharedAndMainWidget
      ∧ ¬(isSharedWidget "products" sharedAndMainWidget = true
            ∧ isDerivedWidget "products" sharedAndMainWidget = true))
    ∧ ∃ p ∈ derivatedWidgets "products" [derivedIndexWidget],
        p.1 = targetedIndexOf derivedIndexWidget ∧ derivedIndexWidget ∈ p.2 :=
  ⟨composer_partition_amended.1 "products" sharedAndMainWidget rfl,
   (composer_partition_amended.2 "products" [derivedIndexWidget]).2.2 derivedIndexWidget
     (List.mem_singleton.mpr rfl)⟩

theorem runSearchCycle_indexMapping_eq (indexName : String)
    (init : SearchParameters) (ws : List Widget) (pm : List (String × String)) :
    (runSearchCycle indexName init ws pm).indexMapping
      = applyWrites (setKey [] (sharedParameters indexName init ws).index indexName)
          ((foldedGroups indexName init ws).map
            (fun g => (g.2.index, g.1.getD "undefined"))) := by
  simp [runSearchCycle, getSearchParameters, applyWrites, List.foldl_map]

/-- Counterexample to claim C3 as stated: with a single widget targeting the
primary index through its multi-index context and redirecting the physical
index, the primary request is dispatched for a physical index that has no
entry in the index mapping; the only entry is keyed by the shared
parameters' index. -/
theorem mapping_coverage_counterexample :
    (runSearchCycle "products" baseParams [sortByMainWidget] []).helperState.index
      = "products_price_desc"
    ∧ (runSearchCycle "products" baseParams [sortByMainWidget] []).dispatchedIndices.head?
      = some "products_price_desc"
    ∧ lookupKey (runSearchCycle "products" baseParams [sortByMainWidget] []).indexMapping
        "products_price_desc" = none
    ∧ (runSearchCycle "products" baseParams [sortByMainWidget] []).indexMapping
      = [("products", "products")] :=
  ⟨rfl, rfl, rfl, rfl⟩

/-- Claim C3, amended: before any request of a cycle is dispatched, the
index mapping contains an entry keyed by the shared parameters' index and an
entry keyed by each derived group's physical (folded) index. When no derived
group folds to the shared parameters' index, the shared entry maps to the
manager's configured index name, and when the derived physical indices are
pairwise distinct, each derived entry maps to its group's logical index
name. The dispatched primary physical index is mainIndexParameters.index,
which is covered only when it coincides with the shared parameters' index
(the counterexample shows it can differ and then has no entry). -/
theorem mapping_coverage_amended (indexName : String) (init : SearchParameters)
    (ws : List Widget) (pm : List (String × String)) :
    ((lookupKey (runSearchCycle indexName init ws pm).indexMapping
        (sharedParameters indexName init ws).index).isSome = true)
    ∧ (∀ g ∈ foldedGroups indexName init ws,
        (lookupKey (runSearchCycle indexName init ws pm).indexMapping
          g.2.index).isSome = true)
    ∧ ((sharedParameters indexName init ws).index
          ∉ (foldedGroups indexName init ws).map (fun g => g.2.index) →
        lookupKey (runSearchCycle indexName init ws pm).indexMapping
          (sharedParameters indexName init ws).index = some indexName)
    ∧ (((foldedGroups indexName init ws).map (fun g => g.2.index)).Nodup →
        ∀ g ∈ foldedGroups indexName init ws,
          lookupKey (runSearchCycle indexName init ws pm).indexMapping g.2.index
            = some (g.1.getD "undefined")) := by
  have hkeys : (((foldedGroups indexName init ws).map
      (fun g => (g.2.index, g.1.getD "undefined"))).map Prod.fst)
      = (foldedGroups indexName init ws).map (fun g => g.2.index) := by
    simp [List.map_map]
  rw [runSearchCycle_indexMapping_eq]
  refine ⟨?_, ?_, ?_, ?_⟩
  · exact lookupKey_applyWrites_isSome _ _ _ (by rw [lookupKey_setKey_self]; rfl)
  · intro g hg
    exact lookupKey_applyWrites_mem_isSome _ _ _
      (by rw [hkeys]; exact List.mem_map_of_mem _ hg)
  · intro hnot
    rw [lookupKey_applyWrites_notMem _ _ _ (by rw [hkeys]; exact hnot),
      lookupKey_setKey_self]
  · intro hnd g hg
    exact lookupKey_applyWrites_nodup _ _ _ _ (by rw [hkeys]; exact hnd)
      (List.mem_map_of_mem _ hg)

def derivedFoldedParams : SearchParameters := { index := "products_by_price", fields := [] }

/-- Witness for the amended C3 at a concrete cycle with one derived group. -/
theorem mapping_coverage_amended_witness :
    lookupKey (runSearchCycle "products" baseParams [derivedIndexWidget] []).indexMapping
        derivedFoldedParams.index
      = some ((some "products_by_price" : Option String).getD "undefined") :=
  (mapping_coverage_amended "products" baseParams [derivedIndexWidget] []).2.2.2
    (by decide) (some "products_by_price", derivedFoldedParams) (by decide)

/-- Counterexample to claim C4 as stated: a response whose physical index is
absent from the current mapping, arriving while the current cycle has
derived helpers, is written into results under the spurious key produced by
the failed lookup (the JavaScript string coercion of undefined). -/
theorem stale_response_counterexample :
    lookupKey [("products", "products")] responseStale.index = none
    ∧ (handleSearchSuccess [some "products_by_price"] [("products", "products")]
        storeMulti responseStale).results
      = Results.multi [("products", responseMain), ("undefined", responseStale)] :=
  ⟨rfl, rfl⟩

/-- Claim C4, amended: a response whose physical index has no entry in the
current index mapping does not crash the handler; when no derived helpers
exist the response replaces results wholesale (mono shape, mapping unused);
when derived helpers exist the handler writes the response under the
literal key produced by the failed lookup, leaving the entry of every other
key unchanged. -/
theorem stale_response_amended (derivedHelperKeys : List (Option String))
    (indexMapping : List (String × String)) (st : StoreState) (content : Response)
    (hlk : lookupKey indexMapping content.index = none) :
    (derivedHelperKeys = [] →
      (handleSearchSuccess derivedHelperKeys indexMapping st content).results
        = Results.mono content)
    ∧ (derivedHelperKeys ≠ [] →
        (handleSearchSuccess derivedHelperKeys indexMapping st content).results
          = Results.multi (setKey st.results.entriesOf "undefined" content))
    ∧ (∀ (es : List (String × Response)) (k : String), k ≠ "undefined" →
        lookupKey (setKey es "undefined" content) k = lookupKey es k) := by
  refine ⟨?_, ?_, ?_⟩
  · intro h
    subst h
    cases hres : st.results <;>
      simp [handleSearchSuccess, hres, Results.isMono, Results.setEntry]
  · intro hne
    cases derivedHelperKeys with
    | nil => exact absurd rfl hne
    | cons d ds =>
      cases hres : st.results <;>
        simp [handleSearchSuccess, hres, hlk, Results.isMono, Results.setEntry,
          Results.entriesOf]
  · intro es k hk
    exact lookupKey_setKey_ne es "undefined" k content hk

/-- Witness for the amended C4 at a concrete stale response. -/
theorem stale_response_amended_witness :
    (handleSearchSuccess [some "products_by_price"] [("products", "products")]
        storeMulti responseStale).results
      = Results.multi (setKey storeMulti.results.entriesOf "undefined" responseStale) :=
  (stale_response_amended [some "products_by_price"] [("products", "products")]
      storeMulti responseStale rfl).2.1 (by decide)

end ReactInstantSearch
